import Mathlib

/-!
Verification of the technical-analysis pipeline in
`src/charts-agent/technical_analysis.py`.

Numeric model: Python floats are modelled as exact rationals (`ℚ`).
IEEE-754 rounding and infinities are outside the model; a NaN value is
modelled explicitly as `none` in `Option ℚ` (TA-Lib emits NaN exactly on
the lookback prefix of each indicator series, and numpy emits NaN for the
0/0 division arising in the all-zero-volume VWAP).  The Bollinger-band
standard deviation is the one genuinely irrational operation in the
source; the development is therefore parameterized by the square-root
primitive `sqrtA` (every theorem below quantifies over it, and no claim
depends on the numeric value it returns).

Python truthiness matters in several places of the source
(`if indicators.rsi_14:`, `if indicators.sma_50 and indicators.sma_200:`,
`indicators.vwap or 0`): an `Optional[float]` is falsy both when it is
`None` and when it equals `0.0`.  This is captured by `truthy` below.
-/

/-- A buy/sell/hold vote, the values of the `signals` dict. -/
inductive Vote where
  | buy
  | sell
  | hold
deriving DecidableEq, BEq

/-- The pattern-strength label: always one of the three strings
`'weak'`, `'moderate'`, `'strong'` (lines 216-221 of the source). -/
inductive Strength where
  | weak
  | moderate
  | strong
deriving DecidableEq

/-- Trend direction as assigned by `_analyze_trend` (the source initializes
`'neutral'` and only ever overwrites with `'bullish'` or `'bearish'`). -/
inductive TrendDirection where
  | bullish
  | bearish
  | neutral
deriving DecidableEq

/-- The 13 distinct TA-Lib candlestick detector functions referenced by
`patterns_to_check` (line 190-205).  `CDLENGULFING` is a single detector
even though it is registered under two display names. -/
inductive DetId where
  | HAMMER
  | INVERTEDHAMMER
  | MORNINGSTAR
  | ENGULFING
  | PIERCING
  | WHITESOLDIERS3
  | DOJI
  | DRAGONFLYDOJI
  | HANGINGMAN
  | SHOOTINGSTAR
  | EVENINGSTAR
  | DARKCLOUDCOVER
  | BLACKCROWS3
deriving DecidableEq, Fintype

/-- Python truthiness of an `Optional[float]`: falsy when `None` or `0.0`. -/
def truthy (x : Option ℚ) : Bool :=
  match x with
  | none => false
  | some q => q != 0

/-- The `TechnicalIndicators` dataclass (lines 26-52): 17 optional fields.
`open_` is not among them; field names follow the source. -/
structure TechnicalIndicators where
  sma_20 : Option ℚ := none
  sma_50 : Option ℚ := none
  sma_200 : Option ℚ := none
  ema_12 : Option ℚ := none
  ema_26 : Option ℚ := none
  rsi_14 : Option ℚ := none
  macd : Option ℚ := none
  macd_signal : Option ℚ := none
  macd_histogram : Option ℚ := none
  stoch_k : Option ℚ := none
  stoch_d : Option ℚ := none
  bb_upper : Option ℚ := none
  bb_middle : Option ℚ := none
  bb_lower : Option ℚ := none
  atr_14 : Option ℚ := none
  obv : Option ℚ := none
  vwap : Option ℚ := none
deriving DecidableEq

/-- The `PatternRecognition` dataclass (lines 54-60). -/
structure PatternRecognition where
  patterns_found : List String
  bullish_patterns : List String
  bearish_patterns : List String
  strength : Strength
deriving DecidableEq

/-- The seven pivot levels computed at lines 259-268. -/
structure Pivots where
  pivot : ℚ
  r1 : ℚ
  r2 : ℚ
  r3 : ℚ
  s1 : ℚ
  s2 : ℚ
  s3 : ℚ
deriving DecidableEq

/-- The `TrendAnalysis` dataclass (lines 62-69).  In the source
`pivot_points` is a dict left empty when the close series is empty; this
is modelled as an `Option Pivots`. -/
structure TrendAnalysis where
  trend_direction : TrendDirection
  trend_strength : ℚ
  support_levels : List ℚ
  resistance_levels : List ℚ
  pivot_points : Option Pivots
deriving DecidableEq

/-- Classic floor-trader pivot points from one candle (lines 259-268):
`pivot = (high+low+close)/3`, `r1 = 2*pivot - low`, `r2 = pivot + (high-low)`,
`r3 = high + 2*(pivot-low)`, `s1 = 2*pivot - high`, `s2 = pivot - (high-low)`,
`s3 = low - 2*(high-pivot)`. -/
def pivots (high low close : ℚ) : Pivots :=
  let p := (high + low + close) / 3
  { pivot := p
    r1 := 2 * p - low
    r2 := p + (high - low)
    r3 := high + 2 * (p - low)
    s1 := 2 * p - high
    s2 := p - (high - low)
    s3 := low - 2 * (high - p) }

/-- `_analyze_trend` (lines 230-279).  Receives the close/high/low series
and the indicator snapshot.  `close[-1]` etc. are modelled by
`getLast?.getD 0`; the default is never consulted on pipeline-reachable
inputs (the source would raise `IndexError` on an empty array, but the
pipeline only calls this with the non-empty normalized series).
Note the Python truthiness of `if indicators.sma_50 and indicators.sma_200:`
and of the `elif` on the EMAs. -/
def analyzeTrend (close high low : List ℚ) (indicators : TechnicalIndicators) :
    TrendAnalysis :=
  let cl := close.getLast?.getD 0
  let dirStrength : TrendDirection × ℚ :=
    if truthy indicators.sma_50 ∧ truthy indicators.sma_200 then
      let s50 := indicators.sma_50.getD 0
      let s200 := indicators.sma_200.getD 0
      if cl > s50 ∧ s50 > s200 then (TrendDirection.bullish, 75)
      else if cl < s50 ∧ s50 < s200 then (TrendDirection.bearish, 75)
      else (TrendDirection.neutral, 50)
    else if truthy indicators.ema_12 ∧ truthy indicators.ema_26 then
      let e12 := indicators.ema_12.getD 0
      let e26 := indicators.ema_26.getD 0
      if e12 > e26 then (TrendDirection.bullish, 60)
      else if e12 < e26 then (TrendDirection.bearish, 60)
      else (TrendDirection.neutral, 50)
    else (TrendDirection.neutral, 50)
  let pp : Option Pivots :=
    if close.length > 0 then
      some (pivots (high.getLast?.getD 0) (low.getLast?.getD 0) cl)
    else none
  { trend_direction := dirStrength.1
    trend_strength := dirStrength.2
    support_levels := match pp with
      | some p => [p.s1, p.s2, p.s3]
      | none => []
    resistance_levels := match pp with
      | some p => [p.r1, p.r2, p.r3]
      | none => []
    pivot_points := pp }

/-! ## Indicator engine (`_calculate_indicators`, lines 137-180)

Each TA-Lib function returns a full output array whose first
`lookback` entries are NaN; the source keeps only the last entry,
mapped to `None` by the `np.isnan` guard.  Each series below is a
`List (Option ℚ)` of the same length as the input, `none` standing
for NaN, and `lastVal` implements `x[-1]` plus the isnan guard. -/

/-- `x[-1]` plus the `np.isnan(x[-1])` guard of lines 163-179: the last
entry of an Option-valued series, `none` when the series is empty
(unreachable in the pipeline) or its last entry is NaN. -/
def lastVal (s : List (Option ℚ)) : Option ℚ :=
  s.getLast?.join

/-- `talib.SMA(close, k)`: NaN for the first `k-1` indices, then the
trailing-window mean. -/
def smaSeries (k : ℕ) (xs : List ℚ) : List (Option ℚ) :=
  (List.range xs.length).map fun i =>
    if i + 1 < k then none
    else some (((xs.drop (i + 1 - k)).take k).sum / k)

/-- The EMA value at index `k - 1 + j` for `talib.EMA(xs, k)`: seeded with
the mean of the first `k` inputs, then
`ema[i] = ema[i-1] + 2/(k+1) * (xs[i] - ema[i-1])`. -/
def emaVal (k : ℕ) (xs : List ℚ) : ℕ → ℚ
  | 0 => (xs.take k).sum / k
  | j + 1 =>
    let prev := emaVal k xs j
    prev + 2 / (k + 1) * (xs.getD (k + j) 0 - prev)

/-- `talib.EMA(xs, k)`: NaN for the first `k-1` indices, then `emaVal`. -/
def emaSeries (k : ℕ) (xs : List ℚ) : List (Option ℚ) :=
  (List.range xs.length).map fun i =>
    if i + 1 < k then none
    else some (emaVal k xs (i + 1 - k))

/-- The gain of close step `i` (`i ≥ 1`): `max (xs[i] - xs[i-1]) 0`. -/
def gainAt (xs : List ℚ) (i : ℕ) : ℚ :=
  max (xs.getD i 0 - xs.getD (i - 1) 0) 0

/-- The loss of close step `i` (`i ≥ 1`): `max (xs[i-1] - xs[i]) 0`. -/
def lossAt (xs : List ℚ) (i : ℕ) : ℚ :=
  max (xs.getD (i - 1) 0 - xs.getD i 0) 0

/-- Wilder-smoothed average gain and loss at index `14 + j` for
`talib.RSI(xs, 14)`: seeded with the plain mean of the first 14
gains/losses, then `avg = (13*avg + new)/14`. -/
def rsiAvgs (xs : List ℚ) : ℕ → ℚ × ℚ
  | 0 =>
    ((((List.range 14).map fun t => gainAt xs (t + 1)).sum / 14),
     (((List.range 14).map fun t => lossAt xs (t + 1)).sum / 14))
  | j + 1 =>
    let prev := rsiAvgs xs j
    ((prev.1 * 13 + gainAt xs (15 + j)) / 14,
     (prev.2 * 13 + lossAt xs (15 + j)) / 14)

/-- `talib.RSI(xs, 14)`: NaN for the first 14 indices, then
`100 * avgGain / (avgGain + avgLoss)`, with TA-Lib's zero-denominator
convention of outputting `0` (so a flat or strictly falling series has
RSI exactly 0). -/
def rsiSeries (xs : List ℚ) : List (Option ℚ) :=
  (List.range xs.length).map fun i =>
    if i < 14 then none
    else some (
      let a := rsiAvgs xs (i - 14)
      if a.1 + a.2 = 0 then 0 else 100 * a.1 / (a.1 + a.2))

/-- The MACD line at index `i ≥ 25`: EMA12 minus EMA26 of the closes. -/
def macdLineVal (xs : List ℚ) (i : ℕ) : ℚ :=
  emaVal 12 xs (i - 11) - emaVal 26 xs (i - 25)

/-- The MACD signal line at index `33 + j`: a 9-period EMA of the MACD
line, seeded with the mean of its first 9 values. -/
def macdSignalVal (xs : List ℚ) : ℕ → ℚ
  | 0 => (((List.range 9).map fun t => macdLineVal xs (25 + t)).sum) / 9
  | j + 1 =>
    let prev := macdSignalVal xs j
    prev + 2 / 10 * (macdLineVal xs (34 + j) - prev)

/-- `talib.MACD(close, 12, 26, 9)` line output: all three outputs share
the total lookback 33, so indices below 33 are NaN. -/
def macdSeries (xs : List ℚ) : List (Option ℚ) :=
  (List.range xs.length).map fun i =>
    if i < 33 then none else some (macdLineVal xs i)

/-- `talib.MACD(close, 12, 26, 9)` signal output (lookback 33). -/
def macdSignalSeries (xs : List ℚ) : List (Option ℚ) :=
  (List.range xs.length).map fun i =>
    if i < 33 then none else some (macdSignalVal xs (i - 33))

/-- `talib.MACD(close, 12, 26, 9)` histogram output: line minus signal. -/
def macdHistSeries (xs : List ℚ) : List (Option ℚ) :=
  (List.range xs.length).map fun i =>
    if i < 33 then none
    else some (macdLineVal xs i - macdSignalVal xs (i - 33))

/-- Raw stochastic %K at index `i ≥ 13`:
`100 * (close - lowestLow14) / (highestHigh14 - lowestLow14)`,
with TA-Lib's zero-range convention of outputting `0`. -/
def fastK (high low close : List ℚ) (i : ℕ) : ℚ :=
  let hh := ((high.drop (i - 13)).take 14).foldl max (high.getD (i - 13) 0)
  let ll := ((low.drop (i - 13)).take 14).foldl min (low.getD (i - 13) 0)
  if hh - ll = 0 then 0 else 100 * (close.getD i 0 - ll) / (hh - ll)

/-- Slow %K at index `i ≥ 15`: 3-period SMA of the raw %K. -/
def slowK (high low close : List ℚ) (i : ℕ) : ℚ :=
  (fastK high low close i + fastK high low close (i - 1) +
    fastK high low close (i - 2)) / 3

/-- Slow %D at index `i ≥ 17`: 3-period SMA of slow %K. -/
def slowD (high low close : List ℚ) (i : ℕ) : ℚ :=
  (slowK high low close i + slowK high low close (i - 1) +
    slowK high low close (i - 2)) / 3

/-- `talib.STOCH(high, low, close, 14, 3, 3)` %K output: both outputs are
aligned at the total lookback `13 + 2 + 2 = 17`. -/
def stochKSeries (high low close : List ℚ) : List (Option ℚ) :=
  (List.range close.length).map fun i =>
    if i < 17 then none else some (slowK high low close i)

/-- `talib.STOCH(high, low, close, 14, 3, 3)` %D output (lookback 17). -/
def stochDSeries (high low close : List ℚ) : List (Option ℚ) :=
  (List.range close.length).map fun i =>
    if i < 17 then none else some (slowD high low close i)

/-- Population variance of the trailing 20-window, used by
`talib.BBANDS(close, 20, 2, 2)`: `E[x²] - (E[x])²`. -/
def bbVar (xs : List ℚ) (i : ℕ) : ℚ :=
  let w := (xs.drop (i + 1 - 20)).take 20
  (w.map fun x => x * x).sum / 20 - (w.sum / 20) * (w.sum / 20)

/-- `talib.BBANDS` upper band: SMA20 plus 2 standard deviations.  The
square root is the `sqrtA` parameter (see the header note). -/
def bbUpperSeries (sqrtA : ℚ → ℚ) (xs : List ℚ) : List (Option ℚ) :=
  (List.range xs.length).map fun i =>
    if i + 1 < 20 then none
    else some (((xs.drop (i + 1 - 20)).take 20).sum / 20 + 2 * sqrtA (bbVar xs i))

/-- `talib.BBANDS` lower band: SMA20 minus 2 standard deviations. -/
def bbLowerSeries (sqrtA : ℚ → ℚ) (xs : List ℚ) : List (Option ℚ) :=
  (List.range xs.length).map fun i =>
    if i + 1 < 20 then none
    else some (((xs.drop (i + 1 - 20)).take 20).sum / 20 - 2 * sqrtA (bbVar xs i))

/-- The true range at index `i ≥ 1`:
`max (high-low) (max |high-prevClose| |low-prevClose|)`. -/
def trueRange (high low close : List ℚ) (i : ℕ) : ℚ :=
  max (high.getD i 0 - low.getD i 0)
    (max |high.getD i 0 - close.getD (i - 1) 0|
      |low.getD i 0 - close.getD (i - 1) 0|)

/-- Wilder-smoothed ATR value at index `14 + j` for
`talib.ATR(high, low, close, 14)`: seeded with the mean of the first 14
true ranges, then `atr = (13*atr + tr)/14`. -/
def atrVal (high low close : List ℚ) : ℕ → ℚ
  | 0 => (((List.range 14).map fun t => trueRange high low close (t + 1)).sum) / 14
  | j + 1 =>
    let prev := atrVal high low close j
    (prev * 13 + trueRange high low close (15 + j)) / 14

/-- `talib.ATR(high, low, close, 14)`: NaN for the first 14 indices. -/
def atrSeries (high low close : List ℚ) : List (Option ℚ) :=
  (List.range close.length).map fun i =>
    if i < 14 then none else some (atrVal high low close (i - 14))

/-- On-balance volume at index `i`: `obv[0] = volume[0]`, then add the
volume when close rose, subtract it when close fell. -/
def obvVal (close volume : List ℚ) : ℕ → ℚ
  | 0 => volume.getD 0 0
  | i + 1 =>
    obvVal close volume i +
      (if close.getD (i + 1) 0 > close.getD i 0 then volume.getD (i + 1) 0
       else if close.getD (i + 1) 0 < close.getD i 0 then -(volume.getD (i + 1) 0)
       else 0)

/-- `talib.OBV(close, volume)`: defined from the first index on. -/
def obvSeries (close volume : List ℚ) : List (Option ℚ) :=
  (List.range close.length).map fun i => some (obvVal close volume i)

/-- `(close * volume).cumsum() / volume.cumsum()` (line 160): the all-zero
denominator gives numpy's 0/0 NaN, modelled as `none`.  (A zero cumulative
volume with a nonzero numerator would give an IEEE infinity, which is
outside the rational model; it requires negative volumes.) -/
def vwapSeries (close volume : List ℚ) : List (Option ℚ) :=
  (List.range close.length).map fun i =>
    let sv := (volume.take (i + 1)).sum
    if sv = 0 then none
    else some (((List.zipWith (fun c v => c * v) close volume).take (i + 1)).sum / sv)

/-- `_calculate_indicators` (lines 137-180): run every TA-Lib call on the
series, keep the last value of each output with the NaN-to-`None` guard.
`open_prices` is received but unused by this stage, as in the source. -/
def calculateIndicators (sqrtA : ℚ → ℚ)
    (close high low open_prices volume : List ℚ) : TechnicalIndicators :=
  let _ := open_prices
  { sma_20 := lastVal (smaSeries 20 close)
    sma_50 := lastVal (smaSeries 50 close)
    sma_200 := lastVal (smaSeries 200 close)
    ema_12 := lastVal (emaSeries 12 close)
    ema_26 := lastVal (emaSeries 26 close)
    rsi_14 := lastVal (rsiSeries close)
    macd := lastVal (macdSeries close)
    macd_signal := lastVal (macdSignalSeries close)
    macd_histogram := lastVal (macdHistSeries close)
    stoch_k := lastVal (stochKSeries high low close)
    stoch_d := lastVal (stochDSeries high low close)
    bb_upper := lastVal (bbUpperSeries sqrtA close)
    bb_middle := lastVal (smaSeries 20 close)
    bb_lower := lastVal (bbLowerSeries sqrtA close)
    atr_14 := lastVal (atrSeries high low close)
    obv := lastVal (obvSeries close volume)
    vwap := lastVal (vwapSeries close volume) }

/-! ## Pattern recognizer (`_recognize_patterns`, lines 182-228)

The 14-entry `patterns_to_check` dict maps display names to TA-Lib
detector functions; `CDLENGULFING` appears under both
`'BULLISH_ENGULFING'` and `'BEARISH_ENGULFING'`.  The detectors
themselves are external TA-Lib routines; the recognizer is
parameterized over `detRes`, the last entry of each detector's output
array (`result[-1]`). -/

/-- The `patterns_to_check` dict, in source insertion order. -/
def patternsToCheck : List (String × DetId) :=
  [("HAMMER", DetId.HAMMER),
   ("INVERTED_HAMMER", DetId.INVERTEDHAMMER),
   ("MORNING_STAR", DetId.MORNINGSTAR),
   ("BULLISH_ENGULFING", DetId.ENGULFING),
   ("PIERCING", DetId.PIERCING),
   ("THREE_WHITE_SOLDIERS", DetId.WHITESOLDIERS3),
   ("DOJI", DetId.DOJI),
   ("DRAGONFLY_DOJI", DetId.DRAGONFLYDOJI),
   ("HANGING_MAN", DetId.HANGINGMAN),
   ("SHOOTING_STAR", DetId.SHOOTINGSTAR),
   ("EVENING_STAR", DetId.EVENINGSTAR),
   ("BEARISH_ENGULFING", DetId.ENGULFING),
   ("DARK_CLOUD_COVER", DetId.DARKCLOUDCOVER),
   ("THREE_BLACK_CROWS", DetId.BLACKCROWS3)]

/-- `_recognize_patterns`, given `detRes d` = the detector's `result[-1]`:
a name goes to `patterns_found` when the result is nonzero, to
`bullish_patterns` when positive and to `bearish_patterns` when
negative; strength is strong at 3+ matches, moderate at exactly 2,
else weak. -/
def recognizePatterns (detRes : DetId → ℤ) : PatternRecognition :=
  let found := (patternsToCheck.filter fun nd => detRes nd.2 ≠ 0).map Prod.fst
  { patterns_found := found
    bullish_patterns := (patternsToCheck.filter fun nd => detRes nd.2 > 0).map Prod.fst
    bearish_patterns :=
      (patternsToCheck.filter fun nd => detRes nd.2 ≠ 0 ∧ ¬ detRes nd.2 > 0).map Prod.fst
    strength :=
      if found.length ≥ 3 then Strength.strong
      else if found.length ≥ 2 then Strength.moderate
      else Strength.weak }

/-! ## Signal synthesis (`_generate_signals`, lines 281-341) -/

/-- The per-component entries of the `signals` dict, in source insertion
order.  Note the Python truthiness guards: `if indicators.rsi_14:`,
`if indicators.macd and indicators.macd_signal:`,
`if indicators.bb_upper and indicators.bb_lower:`, and the fallback
`current_price = indicators.vwap or 0`. -/
def componentSignals (indicators : TechnicalIndicators)
    (patterns : PatternRecognition) (trend : TrendAnalysis) :
    List (String × Vote) :=
  (if truthy indicators.rsi_14 then
    let r := indicators.rsi_14.getD 0
    [("rsi", if r < 30 then Vote.buy else if r > 70 then Vote.sell else Vote.hold)]
   else []) ++
  (if truthy indicators.macd ∧ truthy indicators.macd_signal then
    let m := indicators.macd.getD 0
    let ms := indicators.macd_signal.getD 0
    [("macd", if m > ms then Vote.buy else if m < ms then Vote.sell else Vote.hold)]
   else []) ++
  (if truthy indicators.bb_upper ∧ truthy indicators.bb_lower then
    let cp := if truthy indicators.vwap then indicators.vwap.getD 0 else 0
    [("bollinger",
      if cp ≤ indicators.bb_lower.getD 0 then Vote.buy
      else if cp ≥ indicators.bb_upper.getD 0 then Vote.sell
      else Vote.hold)]
   else []) ++
  [("pattern",
    if patterns.bullish_patterns.length > patterns.bearish_patterns.length then Vote.buy
    else if patterns.bearish_patterns.length > patterns.bullish_patterns.length then Vote.sell
    else Vote.hold)] ++
  [("trend",
    match trend.trend_direction with
    | TrendDirection.bullish => Vote.buy
    | TrendDirection.bearish => Vote.sell
    | TrendDirection.neutral => Vote.hold)]

/-- `buy_count` (line 331): the `'buy'` votes among the component signals. -/
def buyCount (sigs : List (String × Vote)) : ℕ :=
  (sigs.map Prod.snd).count Vote.buy

/-- `sell_count` (line 332): the `'sell'` votes among the component signals. -/
def sellCount (sigs : List (String × Vote)) : ℕ :=
  (sigs.map Prod.snd).count Vote.sell

/-- The `'overall'` majority vote (lines 334-339). -/
def overallVote (sigs : List (String × Vote)) : Vote :=
  if buyCount sigs > sellCount sigs then Vote.buy
  else if sellCount sigs > buyCount sigs then Vote.sell
  else Vote.hold

/-- `_generate_signals`: the component entries followed by `'overall'`,
whose vote counts only the component entries (they are counted at lines
331-332, before `'overall'` is inserted). -/
def generateSignals (indicators : TechnicalIndicators)
    (patterns : PatternRecognition) (trend : TrendAnalysis) :
    List (String × Vote) :=
  let comp := componentSignals indicators patterns trend
  comp ++ [("overall", overallVote comp)]

/-! ## Confidence score (`_calculate_confidence`, lines 343-369) -/

/-- The defined-indicator count of line 355: how many of the 17 fields of
the snapshot are not `None`. -/
def countDefined (ind : TechnicalIndicators) : ℕ :=
  ([ind.sma_20.isSome, ind.sma_50.isSome, ind.sma_200.isSome,
    ind.ema_12.isSome, ind.ema_26.isSome, ind.rsi_14.isSome,
    ind.macd.isSome, ind.macd_signal.isSome, ind.macd_histogram.isSome,
    ind.stoch_k.isSome, ind.stoch_d.isSome, ind.bb_upper.isSome,
    ind.bb_middle.isSome, ind.bb_lower.isSome, ind.atr_14.isSome,
    ind.obv.isSome, ind.vwap.isSome]).count true

/-- `_calculate_confidence`: data quality (30 pts, `min_periods = 200`),
indicator coverage (`count / 12 * 30` — the divisor is the constant 12),
pattern strength (20/12/5 pts), trend strength (`strength/100 * 20` pts),
clamped above by `min(confidence, 100.0)`. -/
def calculateConfidence (indicators : TechnicalIndicators)
    (patterns : PatternRecognition) (trend : TrendAnalysis)
    (data_points : ℕ) : ℚ :=
  let dq : ℚ := if data_points ≥ 200 then 30 else ((data_points : ℚ) / 200) * 30
  let ic : ℚ := ((countDefined indicators : ℚ) / 12) * 30
  let ps : ℚ :=
    match patterns.strength with
    | Strength.strong => 20
    | Strength.moderate => 12
    | Strength.weak => 5
  let ts : ℚ := trend.trend_strength / 100 * 20
  min (dq + ic + ps + ts) 100

/-! ## Input records and column extraction (`analyze`, lines 89-109)

`pd.DataFrame(ohlcv_data)` builds a frame whose column set is the union
of the keys present in the records; a record lacking a key that another
record supplies gets NaN there.  Accessing a column that no record
supplies raises a Python `KeyError` — the empty batch has no columns at
all, so `df['timestamp']` on line 101 already raises.  The source never
defines an `InvalidInputError`; that name exists only in the spec's
error taxonomy and is included in `PyError` purely so its absence can be
stated. -/

/-- A raw request record: each required key may be present (`some`) or
missing (`none`); `symbol` is the optional extra key read from the first
record. -/
structure RawRecord where
  timestamp : Option ℚ := none
  «open» : Option ℚ := none
  high : Option ℚ := none
  low : Option ℚ := none
  close : Option ℚ := none
  volume : Option ℚ := none
  symbol : Option String := none

/-- The required numeric columns, in the order the source accesses them:
`df['timestamp']` on line 101, then `close`, `high`, `low`, `open`,
`volume` on lines 105-109. -/
inductive ColKey where
  | timestamp
  | close
  | high
  | low
  | openF
  | volume
deriving DecidableEq

/-- Project a record onto one required field. -/
def RawRecord.get (r : RawRecord) : ColKey → Option ℚ
  | ColKey.timestamp => r.timestamp
  | ColKey.close => r.close
  | ColKey.high => r.high
  | ColKey.low => r.low
  | ColKey.openF => r.«open»
  | ColKey.volume => r.volume

/-- The JSON key of each required field. -/
def ColKey.name : ColKey → String
  | ColKey.timestamp => "timestamp"
  | ColKey.close => "close"
  | ColKey.high => "high"
  | ColKey.low => "low"
  | ColKey.openF => "open"
  | ColKey.volume => "volume"

/-- A pandas DataFrame built from `records` has column `f` iff some
record carries that key. -/
def hasColumn (records : List RawRecord) (f : ColKey) : Bool :=
  records.any fun r => (r.get f).isSome

/-- The error kinds relevant to the normalization boundary.  `keyError`
is pandas' missing-column error; `invalidInputError` mirrors the spec's
taxonomy and is never produced by any definition in this file. -/
inductive PyError where
  | keyError (col : String)
  | invalidInputError
deriving DecidableEq

/-- `df[f.name]` — the column as stored values (NaN as `none`), or a
`KeyError` when no record carries the key. -/
def getColumn (records : List RawRecord) (f : ColKey) :
    Except PyError (List (Option ℚ)) :=
  if hasColumn records f then Except.ok (records.map fun r => r.get f)
  else Except.error (PyError.keyError f.name)

/-- The five aligned numeric columns plus the timestamp column. -/
structure Columns where
  timestamp : List (Option ℚ)
  close : List (Option ℚ)
  high : List (Option ℚ)
  low : List (Option ℚ)
  «open» : List (Option ℚ)
  volume : List (Option ℚ)

/-- The column accesses of `analyze` in source order (line 101, then
lines 105-109): the first missing column raises `KeyError`.  (The sort
on line 102 reorders rows and raises nothing; the row order does not
affect which error, if any, is raised, so it is left out here — tie
order under the source's default quicksort is discussed at claim C6.) -/
def extractColumns (records : List RawRecord) : Except PyError Columns :=
  match getColumn records ColKey.timestamp with
  | Except.error e => Except.error e
  | Except.ok ts =>
    match getColumn records ColKey.close with
    | Except.error e => Except.error e
    | Except.ok c =>
      match getColumn records ColKey.high with
      | Except.error e => Except.error e
      | Except.ok h =>
        match getColumn records ColKey.low with
        | Except.error e => Except.error e
        | Except.ok l =>
          match getColumn records ColKey.openF with
          | Except.error e => Except.error e
          | Except.ok o =>
            match getColumn records ColKey.volume with
            | Except.error e => Except.error e
            | Except.ok v =>
              Except.ok { timestamp := ts, close := c, high := h, low := l,
                          «open» := o, volume := v }

/-! ## The composed pipeline on fully-populated batches (`analyze`)

For batches in which every record carries all required numeric fields —
the "valid" inputs of the spec — `analyze` (lines 89-135) sorts by
timestamp, extracts the five series and composes the five stages.  The
candlestick detectors stay parameterized (`detRes`), as in
`recognizePatterns`.  The sort is modelled with a stable merge sort;
the source's `df.sort_values('timestamp')` uses numpy's default
(unstable) quicksort, so only batches whose tie order is irrelevant are
reasoned about through this definition (see claim C6). -/

/-- A fully-populated candle record. -/
structure Candle where
  timestamp : ℚ
  «open» : ℚ
  high : ℚ
  low : ℚ
  close : ℚ
  volume : ℚ
  symbol : Option String := none
deriving DecidableEq

/-- `df.sort_values('timestamp')` for fully-populated batches. -/
def sortCandles (candles : List Candle) : List Candle :=
  candles.mergeSort fun a b => a.timestamp ≤ b.timestamp

/-- The `TechnicalAnalysisResult` dataclass (lines 71-81). -/
structure TechnicalAnalysisResult where
  symbol : String
  timestamp : ℚ
  current_price : ℚ
  indicators : TechnicalIndicators
  patterns : PatternRecognition
  trend : TrendAnalysis
  signals : List (String × Vote)
  confidence : ℚ

/-- `TechnicalAnalyzer.analyze` on a fully-populated batch: sort, project
the five series, then run the four computation stages (lines 99-135).
`none` on the empty batch, where the source instead raises (claim C2). -/
def analyzeValid (sqrtA : ℚ → ℚ) (detRes : DetId → ℤ) (candles : List Candle) :
    Option TechnicalAnalysisResult :=
  if candles = [] then none
  else
    let s := sortCandles candles
    let close := s.map Candle.close
    let high := s.map Candle.high
    let low := s.map Candle.low
    let open_prices := s.map Candle.«open»
    let volume := s.map Candle.volume
    let indicators := calculateIndicators sqrtA close high low open_prices volume
    let patterns := recognizePatterns detRes
    let trend := analyzeTrend close high low indicators
    some
      { symbol := ((candles.head?.map Candle.symbol).join).getD "UNKNOWN"
        timestamp := ((s.map Candle.timestamp).getLast?).getD 0
        current_price := close.getLast?.getD 0
        indicators := indicators
        patterns := patterns
        trend := trend
        signals := generateSignals indicators patterns trend
        confidence := calculateConfidence indicators patterns trend s.length }

/-- A snapshot whose 50-SMA is defined but exactly `0.0` (Python-falsy),
with a defined 200-SMA and EMA pair.  Reachable, e.g., from 200 candles
whose last 50 closes are all zero.  Used at claim C8. -/
def zeroSmaInd : TechnicalIndicators :=
  { sma_50 := some 0, sma_200 := some 3, ema_12 := some 1, ema_26 := some 2 }

/-- Fifteen strictly falling candles (timestamps already ascending):
enough history for RSI-14, and with no up-moves the Wilder average gain
is 0, so TA-Lib's RSI is exactly `0.0`.  Used at claim C3. -/
def fallingBatch : List Candle :=
  [⟨0, 15, 15, 15, 15, 1, none⟩, ⟨1, 14, 14, 14, 14, 1, none⟩,
   ⟨2, 13, 13, 13, 13, 1, none⟩, ⟨3, 12, 12, 12, 12, 1, none⟩,
   ⟨4, 11, 11, 11, 11, 1, none⟩, ⟨5, 10, 10, 10, 10, 1, none⟩,
   ⟨6, 9, 9, 9, 9, 1, none⟩, ⟨7, 8, 8, 8, 8, 1, none⟩,
   ⟨8, 7, 7, 7, 7, 1, none⟩, ⟨9, 6, 6, 6, 6, 1, none⟩,
   ⟨10, 5, 5, 5, 5, 1, none⟩, ⟨11, 4, 4, 4, 4, 1, none⟩,
   ⟨12, 3, 3, 3, 3, 1, none⟩, ⟨13, 2, 2, 2, 2, 1, none⟩,
   ⟨14, 1, 1, 1, 1, 1, none⟩]

/-! ## Helper lemmas -/

/-- The last entry of a length-`n` series built by mapping over
`List.range n`, after the NaN guard. -/
theorem lastVal_rangeMap (f : ℕ → Option ℚ) (n : ℕ) (hn : n ≠ 0) :
    lastVal ((List.range n).map f) = f (n - 1) := by
  have h : (List.range n).map f = (List.range (n - 1)).map f ++ [f (n - 1)] := by
    conv_lhs => rw [show n = (n - 1) + 1 by omega]
    rw [List.range_succ, List.map_append]
    simp
  rw [lastVal, h, List.getLast?_concat]
  rfl

/-- `_analyze_trend` only ever assigns trend strengths 50, 60, 75. -/
theorem analyzeTrend_strength_cases (close high low : List ℚ)
    (ind : TechnicalIndicators) :
    (analyzeTrend close high low ind).trend_strength = 50 ∨
    (analyzeTrend close high low ind).trend_strength = 60 ∨
    (analyzeTrend close high low ind).trend_strength = 75 := by
  unfold analyzeTrend
  dsimp only
  split_ifs <;> simp

/-- The component entries never use the key `'overall'`. -/
theorem lookup_overall_componentSignals (ind : TechnicalIndicators)
    (pat : PatternRecognition) (trend : TrendAnalysis) :
    List.lookup "overall" (componentSignals ind pat trend) = none := by
  unfold componentSignals
  split_ifs <;> simp [List.lookup]

/-- The `'overall'` entry of the signals dict holds the majority vote of
the component entries. -/
theorem lookup_overall_generateSignals (ind : TechnicalIndicators)
    (pat : PatternRecognition) (trend : TrendAnalysis) :
    List.lookup "overall" (generateSignals ind pat trend) =
      some (overallVote (componentSignals ind pat trend)) := by
  unfold generateSignals
  rw [List.lookup_append, lookup_overall_componentSignals]
  simp

/-! ## Claim C1 -/

/-- Claim C1 counterexample: at the candle `high = 12`, `low = 9`,
`close = 11` (the single-candle scenario of the spec itself), the
computed pivots satisfy `r1 + s1 = 65/3` while `2*pivot = 64/3`, so the
claimed identity `r1 + s1 = 2*pivot` fails on an actual `_analyze_trend`
output. -/
theorem c1_pivot_identity_fails :
    (analyzeTrend [11] [12] [9] {}).pivot_points = some (pivots 12 9 11) ∧
    (pivots 12 9 11).r1 + (pivots 12 9 11).s1 ≠ 2 * (pivots 12 9 11).pivot := by
  constructor
  · rfl
  · norm_num [pivots]

/-- Claim C1, amended: for every computed pivot set,
`r2 - s2 = 2*(high - low)` holds exactly, and the first sum satisfies
`r1 + s1 = 4*pivot - (high + low)` (which collapses to `2*pivot` only
when `2*close = high + low`). -/
theorem c1_pivot_identities (high low close : ℚ) :
    (pivots high low close).r2 - (pivots high low close).s2 = 2 * (high - low) ∧
    (pivots high low close).r1 + (pivots high low close).s1 =
      4 * (pivots high low close).pivot - (high + low) := by
  constructor <;> (simp only [pivots]; ring)

/-! ## Claim C4 -/

/-- Claim C4: the confidence score of any analysis whose trend comes from
`_analyze_trend` lies in [0, 100] — for every snapshot, every pattern
result and every batch length, despite the `/12` coverage divisor (the
clamp `min(confidence, 100)` absorbs the overshoot). -/
theorem c4_confidence_in_range (ind : TechnicalIndicators)
    (pat : PatternRecognition) (close high low : List ℚ) (n : ℕ) :
    0 ≤ calculateConfidence ind pat (analyzeTrend close high low ind) n ∧
    calculateConfidence ind pat (analyzeTrend close high low ind) n ≤ 100 := by
  have hts := analyzeTrend_strength_cases close high low ind
  unfold calculateConfidence
  constructor
  · apply le_min _ (by norm_num)
    have hdq : (0:ℚ) ≤
        (if n ≥ 200 then (30:ℚ) else ((n : ℚ) / 200) * 30) := by
      split_ifs <;> positivity
    have hic : (0:ℚ) ≤ ((countDefined ind : ℚ) / 12) * 30 := by positivity
    have hps : (0:ℚ) ≤
        (match pat.strength with
         | Strength.strong => (20:ℚ)
         | Strength.moderate => 12
         | Strength.weak => 5) := by
      cases pat.strength <;> norm_num
    have hts' : (0:ℚ) ≤ (analyzeTrend close high low ind).trend_strength / 100 * 20 := by
      rcases hts with h | h | h <;> rw [h] <;> norm_num
    linarith
  · exact min_le_right _ _

/-! ## Claim C9 -/

/-- Claim C9: every analysis whose trend comes from `_analyze_trend` has
confidence at least 15: the pattern term contributes at least 5 (the
strength label is always weak, moderate or strong), the trend term at
least 10 (trend strength is always 50, 60 or 75), and the data-quality
and coverage terms are non-negative. -/
theorem c9_confidence_at_least_15 (ind : TechnicalIndicators)
    (pat : PatternRecognition) (close high low : List ℚ) (n : ℕ) :
    15 ≤ calculateConfidence ind pat (analyzeTrend close high low ind) n := by
  have hts := analyzeTrend_strength_cases close high low ind
  unfold calculateConfidence
  apply le_min _ (by norm_num)
  have hdq : (0:ℚ) ≤ (if n ≥ 200 then (30:ℚ) else ((n : ℚ) / 200) * 30) := by
    split_ifs <;> positivity
  have hic : (0:ℚ) ≤ ((countDefined ind : ℚ) / 12) * 30 := by positivity
  have hps : (5:ℚ) ≤
      (match pat.strength with
       | Strength.strong => (20:ℚ)
       | Strength.moderate => 12
       | Strength.weak => 5) := by
    cases pat.strength <;> norm_num
  have hts' : (10:ℚ) ≤ (analyzeTrend close high low ind).trend_strength / 100 * 20 := by
    rcases hts with h | h | h <;> rw [h] <;> norm_num
  linarith

/-! ## Claim C5 -/

/-- Claim C5: the `'overall'` signal is the strict majority vote of the
component entries present in the signals dict — `'buy'` iff strictly
more `'buy'` than `'sell'` votes, `'sell'` iff strictly more `'sell'`,
and `'hold'` on every tie (in particular when no buy or sell votes are
present at all). -/
theorem c5_overall_majority (ind : TechnicalIndicators)
    (pat : PatternRecognition) (trend : TrendAnalysis) :
    List.lookup "overall" (generateSignals ind pat trend) =
      some (overallVote (componentSignals ind pat trend)) ∧
    (overallVote (componentSignals ind pat trend) = Vote.buy ↔
      buyCount (componentSignals ind pat trend) >
        sellCount (componentSignals ind pat trend)) ∧
    (overallVote (componentSignals ind pat trend) = Vote.sell ↔
      sellCount (componentSignals ind pat trend) >
        buyCount (componentSignals ind pat trend)) ∧
    (buyCount (componentSignals ind pat trend) =
        sellCount (componentSignals ind pat trend) →
      overallVote (componentSignals ind pat trend) = Vote.hold) := by
  refine ⟨lookup_overall_generateSignals ind pat trend, ?_, ?_, ?_⟩ <;>
    unfold overallVote <;> split_ifs <;> simp_all <;> omega

/-- The `'rsi'` key of the component signals: present iff `rsi_14` is
Python-truthy (defined and nonzero), with the threshold vote. -/
theorem lookup_rsi_componentSignals (ind : TechnicalIndicators)
    (pat : PatternRecognition) (trend : TrendAnalysis) :
    List.lookup "rsi" (componentSignals ind pat trend) =
      if truthy ind.rsi_14 then
        some (if ind.rsi_14.getD 0 < 30 then Vote.buy
              else if ind.rsi_14.getD 0 > 70 then Vote.sell else Vote.hold)
      else none := by
  unfold componentSignals
  by_cases h1 : truthy ind.rsi_14 <;>
    by_cases h2 : truthy ind.macd ∧ truthy ind.macd_signal <;>
      by_cases h3 : truthy ind.bb_upper ∧ truthy ind.bb_lower <;>
        simp [h1, h2, h3, List.lookup]

/-- The `'rsi'` key of the full signals dict. -/
theorem lookup_rsi_generateSignals (ind : TechnicalIndicators)
    (pat : PatternRecognition) (trend : TrendAnalysis) :
    List.lookup "rsi" (generateSignals ind pat trend) =
      if truthy ind.rsi_14 then
        some (if ind.rsi_14.getD 0 < 30 then Vote.buy
              else if ind.rsi_14.getD 0 > 70 then Vote.sell else Vote.hold)
      else none := by
  unfold generateSignals
  rw [List.lookup_append, lookup_rsi_componentSignals]
  split_ifs <;> simp [List.lookup]

/-! ## Claim C3 -/

/-- Claim C3, amended: the signals mapping contains the key `'rsi'` iff
`rsi_14` is defined and nonzero (Python truthiness of
`if indicators.rsi_14:`), in which case the vote is `'buy'` for
RSI < 30, `'sell'` for RSI > 70 and `'hold'` otherwise; a defined RSI of
exactly `0.0` (a falsy float) also omits the key. -/
theorem c3_rsi_signal (ind : TechnicalIndicators) (pat : PatternRecognition)
    (trend : TrendAnalysis) (r : ℚ) :
    (ind.rsi_14 = some r → r ≠ 0 →
      List.lookup "rsi" (generateSignals ind pat trend) =
        some (if r < 30 then Vote.buy
              else if r > 70 then Vote.sell else Vote.hold)) ∧
    (ind.rsi_14 = none ∨ ind.rsi_14 = some 0 →
      List.lookup "rsi" (generateSignals ind pat trend) = none) := by
  rw [lookup_rsi_generateSignals]
  constructor
  · intro h hr
    rw [h]
    simp [truthy, hr]
  · rintro (h | h) <;> simp [h, truthy]

/-- Claim C3 witness: at the snapshot with `rsi_14 = 20` the key is
present with vote `'buy'`; `c3_rsi_signal` applied at a concrete input. -/
theorem c3_rsi_signal_witness :
    List.lookup "rsi"
      (generateSignals { rsi_14 := some 20 } ⟨[], [], [], Strength.weak⟩
        ⟨TrendDirection.neutral, 50, [], [], none⟩) = some Vote.buy := by
  have h := (c3_rsi_signal { rsi_14 := some 20 } ⟨[], [], [], Strength.weak⟩
    ⟨TrendDirection.neutral, 50, [], [], none⟩ 20).1 rfl (by norm_num)
  simpa using h

/-- Claim C3 counterexample: analysing the fifteen-candle strictly
falling batch yields a defined `rsi_14 = 0.0`, yet the signals dict has
no `'rsi'` key (the Python truthiness test skips the zero float), so the
key is not omitted "only when rsi_14 is undefined". -/
theorem c3_zero_rsi_key_absent :
    ((analyzeValid (fun _ => 0) (fun _ => 0) fallingBatch).map fun res =>
      (res.indicators.rsi_14, List.lookup "rsi" res.signals)) =
    some (some 0, none) := by
  have hsort : sortCandles fallingBatch = fallingBatch := by
    apply List.mergeSort_of_sorted
    decide
  have hne : fallingBatch ≠ [] := by simp [fallingBatch]
  have hclose : (sortCandles fallingBatch).map Candle.close =
      [15, 14, 13, 12, 11, 10, 9, 8, 7, 6, 5, 4, 3, 2, 1] := by
    rw [hsort]; rfl
  have hrsi : lastVal (rsiSeries ((sortCandles fallingBatch).map Candle.close)) =
      some 0 := by
    rw [hclose]
    rw [rsiSeries, show ([15, 14, 13, 12, 11, 10, 9, 8, 7, 6, 5, 4, 3, 2, 1] :
      List ℚ).length = 15 from rfl, lastVal_rangeMap _ 15 (by norm_num)]
    norm_num [rsiAvgs, gainAt, lossAt, List.range_succ]
  unfold analyzeValid
  rw [if_neg hne]
  simp only [Option.map_some']
  have hind : (calculateIndicators (fun _ => 0)
      ((sortCandles fallingBatch).map Candle.close)
      ((sortCandles fallingBatch).map Candle.high)
      ((sortCandles fallingBatch).map Candle.low)
      ((sortCandles fallingBatch).map Candle.«open»)
      ((sortCandles fallingBatch).map Candle.volume)).rsi_14 = some 0 := by
    unfold calculateIndicators
    exact hrsi
  simp only [Option.some.injEq, Prod.mk.injEq]
  refine ⟨hind, ?_⟩
  rw [lookup_rsi_generateSignals, hind]
  simp [truthy]

/-! ## Claim C8 -/

/-- Claim C8, amended: when `sma_50` and `sma_200` are both defined and
nonzero (Python-truthy) and neither `close > sma50 > sma200` nor
`close < sma50 < sma200` holds, the trend is neutral with strength 50
and the EMA rule is never consulted; a defined-but-zero SMA instead
falls through to the `elif` EMA branch. -/
theorem c8_sma_rule_neutral (close high low : List ℚ)
    (ind : TechnicalIndicators)
    (h50 : truthy ind.sma_50 = true) (h200 : truthy ind.sma_200 = true)
    (hnb : ¬(close.getLast?.getD 0 > ind.sma_50.getD 0 ∧
      ind.sma_50.getD 0 > ind.sma_200.getD 0))
    (hns : ¬(close.getLast?.getD 0 < ind.sma_50.getD 0 ∧
      ind.sma_50.getD 0 < ind.sma_200.getD 0)) :
    (analyzeTrend close high low ind).trend_direction = TrendDirection.neutral ∧
    (analyzeTrend close high low ind).trend_strength = 50 := by
  unfold analyzeTrend
  dsimp only
  rw [if_pos ⟨h50, h200⟩, if_neg hnb, if_neg hns]
  exact ⟨rfl, rfl⟩

/-- Claim C8 witness: `c8_sma_rule_neutral` applied at a snapshot with
`sma_50 = 1`, `sma_200 = 2` and latest close 1, where neither SMA chain
holds; the result is neutral with strength 50. -/
theorem c8_sma_rule_neutral_witness :
    (analyzeTrend [1] [2] [1]
      { sma_50 := some 1, sma_200 := some 2 }).trend_direction =
      TrendDirection.neutral ∧
    (analyzeTrend [1] [2] [1]
      { sma_50 := some 1, sma_200 := some 2 }).trend_strength = 50 :=
  c8_sma_rule_neutral [1] [2] [1] { sma_50 := some 1, sma_200 := some 2 }
    rfl rfl (by norm_num) (by norm_num)

/-- Claim C8 counterexample: in `zeroSmaInd` both SMAs are defined and
neither comparison chain holds (`0 > 0` and `0 < 0` are both false at
latest close 0), yet the trend is bearish with strength 60: the Python
truthiness test `if indicators.sma_50 and indicators.sma_200:` rejects
the zero float and the EMA rule fires instead of the claimed
neutral/50. -/
theorem c8_defined_sma_not_neutral :
    zeroSmaInd.sma_50.isSome = true ∧ zeroSmaInd.sma_200.isSome = true ∧
    ¬(([0] : List ℚ).getLast?.getD 0 > zeroSmaInd.sma_50.getD 0 ∧
      zeroSmaInd.sma_50.getD 0 > zeroSmaInd.sma_200.getD 0) ∧
    ¬(([0] : List ℚ).getLast?.getD 0 < zeroSmaInd.sma_50.getD 0 ∧
      zeroSmaInd.sma_50.getD 0 < zeroSmaInd.sma_200.getD 0) ∧
    (analyzeTrend [0] [1] [0] zeroSmaInd).trend_direction =
      TrendDirection.bearish ∧
    (analyzeTrend [0] [1] [0] zeroSmaInd).trend_strength = 60 := by
  refine ⟨rfl, rfl, by norm_num [zeroSmaInd], by norm_num [zeroSmaInd], ?_, ?_⟩ <;>
    norm_num [analyzeTrend, zeroSmaInd, truthy]

/-! ## Claim C7 -/

/-- A mapped-range series whose last entry is NaN (or which is empty)
survives the isnan guard as `None`. -/
theorem lastVal_none_of (f : ℕ → Option ℚ) (n : ℕ)
    (h : n = 0 ∨ f (n - 1) = none) :
    lastVal ((List.range n).map f) = none := by
  rcases Nat.eq_zero_or_pos n with h0 | hpos
  · subst h0; rfl
  · rcases h with h | h
    · omega
    · rw [lastVal_rangeMap f n (by omega), h]

/-- Claim C7: every windowed indicator key is absent (never zero) when
the batch holds fewer candles than the indicator's window — 20/50/200
for the SMAs, 12/26 for the EMAs, 15 for RSI-14 and ATR-14, 34 for the
three MACD outputs, 18 for both stochastic outputs, 20 for the three
Bollinger bands — and the all-zero-volume VWAP (numpy's 0/0 NaN) is
likewise absent. -/
theorem c7_windowed_indicators_undefined (sqrtA : ℚ → ℚ)
    (close high low op vol : List ℚ) :
    (close.length < 20 →
      (calculateIndicators sqrtA close high low op vol).sma_20 = none) ∧
    (close.length < 50 →
      (calculateIndicators sqrtA close high low op vol).sma_50 = none) ∧
    (close.length < 200 →
      (calculateIndicators sqrtA close high low op vol).sma_200 = none) ∧
    (close.length < 12 →
      (calculateIndicators sqrtA close high low op vol).ema_12 = none) ∧
    (close.length < 26 →
      (calculateIndicators sqrtA close high low op vol).ema_26 = none) ∧
    (close.length < 15 →
      (calculateIndicators sqrtA close high low op vol).rsi_14 = none) ∧
    (close.length < 34 →
      (calculateIndicators sqrtA close high low op vol).macd = none) ∧
    (close.length < 34 →
      (calculateIndicators sqrtA close high low op vol).macd_signal = none) ∧
    (close.length < 34 →
      (calculateIndicators sqrtA close high low op vol).macd_histogram = none) ∧
    (close.length < 18 →
      (calculateIndicators sqrtA close high low op vol).stoch_k = none) ∧
    (close.length < 18 →
      (calculateIndicators sqrtA close high low op vol).stoch_d = none) ∧
    (close.length < 20 →
      (calculateIndicators sqrtA close high low op vol).bb_upper = none) ∧
    (close.length < 20 →
      (calculateIndicators sqrtA close high low op vol).bb_middle = none) ∧
    (close.length < 20 →
      (calculateIndicators sqrtA close high low op vol).bb_lower = none) ∧
    (close.length < 15 →
      (calculateIndicators sqrtA close high low op vol).atr_14 = none) ∧
    ((vol.take close.length).sum = 0 →
      (calculateIndicators sqrtA close high low op vol).vwap = none) := by
  refine ⟨?_, ?_, ?_, ?_, ?_, ?_, ?_, ?_, ?_, ?_, ?_, ?_, ?_, ?_, ?_, ?_⟩
  · intro h
    show lastVal (smaSeries 20 close) = none
    unfold smaSeries
    apply lastVal_none_of
    right
    have hc : close.length - 1 + 1 < 20 := by omega
    simp [hc]
  · intro h
    show lastVal (smaSeries 50 close) = none
    unfold smaSeries
    apply lastVal_none_of
    right
    have hc : close.length - 1 + 1 < 50 := by omega
    simp [hc]
  · intro h
    show lastVal (smaSeries 200 close) = none
    unfold smaSeries
    apply lastVal_none_of
    right
    have hc : close.length - 1 + 1 < 200 := by omega
    simp [hc]
  · intro h
    show lastVal (emaSeries 12 close) = none
    unfold emaSeries
    apply lastVal_none_of
    right
    have hc : close.length - 1 + 1 < 12 := by omega
    simp [hc]
  · intro h
    show lastVal (emaSeries 26 close) = none
    unfold emaSeries
    apply lastVal_none_of
    right
    have hc : close.length - 1 + 1 < 26 := by omega
    simp [hc]
  · intro h
    show lastVal (rsiSeries close) = none
    unfold rsiSeries
    apply lastVal_none_of
    right
    have hc : close.length - 1 < 14 := by omega
    simp [hc]
  · intro h
    show lastVal (macdSeries close) = none
    unfold macdSeries
    apply lastVal_none_of
    right
    have hc : close.length - 1 < 33 := by omega
    simp [hc]
  · intro h
    show lastVal (macdSignalSeries close) = none
    unfold macdSignalSeries
    apply lastVal_none_of
    right
    have hc : close.length - 1 < 33 := by omega
    simp [hc]
  · intro h
    show lastVal (macdHistSeries close) = none
    unfold macdHistSeries
    apply lastVal_none_of
    right
    have hc : close.length - 1 < 33 := by omega
    simp [hc]
  · intro h
    show lastVal (stochKSeries high low close) = none
    unfold stochKSeries
    apply lastVal_none_of
    right
    have hc : close.length - 1 < 17 := by omega
    simp [hc]
  · intro h
    show lastVal (stochDSeries high low close) = none
    unfold stochDSeries
    apply lastVal_none_of
    right
    have hc : close.length - 1 < 17 := by omega
    simp [hc]
  · intro h
    show lastVal (bbUpperSeries sqrtA close) = none
    unfold bbUpperSeries
    apply lastVal_none_of
    right
    have hc : close.length - 1 + 1 < 20 := by omega
    simp [hc]
  · intro h
    show lastVal (smaSeries 20 close) = none
    unfold smaSeries
    apply lastVal_none_of
    right
    have hc : close.length - 1 + 1 < 20 := by omega
    simp [hc]
  · intro h
    show lastVal (bbLowerSeries sqrtA close) = none
    unfold bbLowerSeries
    apply lastVal_none_of
    right
    have hc : close.length - 1 + 1 < 20 := by omega
    simp [hc]
  · intro h
    show lastVal (atrSeries high low close) = none
    unfold atrSeries
    apply lastVal_none_of
    right
    have hc : close.length - 1 < 14 := by omega
    simp [hc]
  · intro hv
    show lastVal (vwapSeries close vol) = none
    unfold vwapSeries
    apply lastVal_none_of
    rcases Nat.eq_zero_or_pos close.length with h0 | hpos
    · exact Or.inl h0
    · right
      dsimp only
      rw [show close.length - 1 + 1 = close.length by omega]
      simp [hv]

/-- Claim C7 witness: on the single degenerate candle
`{open 10, high 12, low 9, close 11, volume 0}` every windowed
indicator key is absent and the zero-volume VWAP is absent;
`c7_windowed_indicators_undefined` applied at that batch. -/
theorem c7_windowed_indicators_undefined_witness :
    (calculateIndicators id [11] [12] [9] [10] [0]).sma_20 = none ∧
    (calculateIndicators id [11] [12] [9] [10] [0]).sma_200 = none ∧
    (calculateIndicators id [11] [12] [9] [10] [0]).rsi_14 = none ∧
    (calculateIndicators id [11] [12] [9] [10] [0]).macd = none ∧
    (calculateIndicators id [11] [12] [9] [10] [0]).stoch_k = none ∧
    (calculateIndicators id [11] [12] [9] [10] [0]).bb_upper = none ∧
    (calculateIndicators id [11] [12] [9] [10] [0]).atr_14 = none ∧
    (calculateIndicators id [11] [12] [9] [10] [0]).vwap = none := by
  have h := c7_windowed_indicators_undefined id [11] [12] [9] [10] [0]
  exact ⟨h.1 (by norm_num), h.2.2.1 (by norm_num), h.2.2.2.2.2.1 (by norm_num),
    h.2.2.2.2.2.2.1 (by norm_num), h.2.2.2.2.2.2.2.2.2.1 (by norm_num),
    h.2.2.2.2.2.2.2.2.2.2.2.1 (by norm_num),
    h.2.2.2.2.2.2.2.2.2.2.2.2.2.2.1 (by norm_num),
    h.2.2.2.2.2.2.2.2.2.2.2.2.2.2.2 (by norm_num)⟩

/-! ## Claim C10 -/

/-- Membership in the three pattern lists, characterized through the
catalog and the detector results. -/
theorem mem_patternLists (detRes : DetId → ℤ) (name : String) :
    (name ∈ (recognizePatterns detRes).patterns_found ↔
      ∃ d, (name, d) ∈ patternsToCheck ∧ detRes d ≠ 0) ∧
    (name ∈ (recognizePatterns detRes).bullish_patterns ↔
      ∃ d, (name, d) ∈ patternsToCheck ∧ detRes d > 0) ∧
    (name ∈ (recognizePatterns detRes).bearish_patterns ↔
      ∃ d, (name, d) ∈ patternsToCheck ∧ detRes d ≠ 0 ∧ ¬ detRes d > 0) := by
  refine ⟨?_, ?_, ?_⟩ <;>
    simp only [recognizePatterns, List.mem_map, List.mem_filter] <;>
    constructor
  · rintro ⟨⟨n, d⟩, ⟨hm, hp⟩, rfl⟩
    exact ⟨d, hm, by simpa using hp⟩
  · rintro ⟨d, hm, hp⟩
    exact ⟨(name, d), ⟨hm, by simpa using hp⟩, rfl⟩
  · rintro ⟨⟨n, d⟩, ⟨hm, hp⟩, rfl⟩
    exact ⟨d, hm, by simpa using hp⟩
  · rintro ⟨d, hm, hp⟩
    exact ⟨(name, d), ⟨hm, by simpa using hp⟩, rfl⟩
  · rintro ⟨⟨n, d⟩, ⟨hm, hp⟩, rfl⟩
    exact ⟨d, hm, by simpa using hp⟩
  · rintro ⟨d, hm, hp⟩
    exact ⟨(name, d), ⟨hm, by simpa using hp⟩, rfl⟩

/-- Claim C10: `'BULLISH_ENGULFING'` and `'BEARISH_ENGULFING'` alias the
single `CDLENGULFING` detector, so they appear in `patterns_found`
together or not at all, always land in the same list (both bullish or
both bearish), and no pattern name ever sits in both the bullish and the
bearish list. -/
theorem c10_engulfing_alias (detRes : DetId → ℤ) :
    ("BULLISH_ENGULFING" ∈ (recognizePatterns detRes).patterns_found ↔
      "BEARISH_ENGULFING" ∈ (recognizePatterns detRes).patterns_found) ∧
    ("BULLISH_ENGULFING" ∈ (recognizePatterns detRes).bullish_patterns ↔
      "BEARISH_ENGULFING" ∈ (recognizePatterns detRes).bullish_patterns) ∧
    ("BULLISH_ENGULFING" ∈ (recognizePatterns detRes).bearish_patterns ↔
      "BEARISH_ENGULFING" ∈ (recognizePatterns detRes).bearish_patterns) ∧
    (∀ name : String, ¬(name ∈ (recognizePatterns detRes).bullish_patterns ∧
      name ∈ (recognizePatterns detRes).bearish_patterns)) := by
  have hbull : ∀ d, ("BULLISH_ENGULFING", d) ∈ patternsToCheck ↔
      d = DetId.ENGULFING := by decide
  have hbear : ∀ d, ("BEARISH_ENGULFING", d) ∈ patternsToCheck ↔
      d = DetId.ENGULFING := by decide
  have hdet : ∀ p ∈ patternsToCheck, ∀ q ∈ patternsToCheck,
      p.1 = q.1 → p.2 = q.2 := by decide
  refine ⟨?_, ?_, ?_, ?_⟩
  · rw [(mem_patternLists detRes "BULLISH_ENGULFING").1,
      (mem_patternLists detRes "BEARISH_ENGULFING").1]
    constructor
    · rintro ⟨d, hm, hp⟩
      exact ⟨DetId.ENGULFING, by decide, by rwa [(hbull d).mp hm] at hp⟩
    · rintro ⟨d, hm, hp⟩
      exact ⟨DetId.ENGULFING, by decide, by rwa [(hbear d).mp hm] at hp⟩
  · rw [(mem_patternLists detRes "BULLISH_ENGULFING").2.1,
      (mem_patternLists detRes "BEARISH_ENGULFING").2.1]
    constructor
    · rintro ⟨d, hm, hp⟩
      exact ⟨DetId.ENGULFING, by decide, by rwa [(hbull d).mp hm] at hp⟩
    · rintro ⟨d, hm, hp⟩
      exact ⟨DetId.ENGULFING, by decide, by rwa [(hbear d).mp hm] at hp⟩
  · rw [(mem_patternLists detRes "BULLISH_ENGULFING").2.2,
      (mem_patternLists detRes "BEARISH_ENGULFING").2.2]
    constructor
    · rintro ⟨d, hm, hp⟩
      exact ⟨DetId.ENGULFING, by decide, by rwa [(hbull d).mp hm] at hp⟩
    · rintro ⟨d, hm, hp⟩
      exact ⟨DetId.ENGULFING, by decide, by rwa [(hbear d).mp hm] at hp⟩
  · intro name
    rintro ⟨hb, hr⟩
    obtain ⟨d1, hm1, hp1⟩ := ((mem_patternLists detRes name).2.1).mp hb
    obtain ⟨d2, hm2, hp2⟩ := ((mem_patternLists detRes name).2.2).mp hr
    have hd : d1 = d2 := hdet (name, d1) hm1 (name, d2) hm2 rfl
    rw [hd] at hp1
    exact hp2.2 hp1

/-! ## Claim C2 -/

/-- Claim C2 counterexample: on the empty batch the first failing
operation is the `df['timestamp']` column access, a pandas `KeyError` —
not an `InvalidInputError`, a kind the source never defines or raises. -/
theorem c2_empty_batch_keyerror :
    extractColumns [] = Except.error (PyError.keyError "timestamp") ∧
    PyError.keyError "timestamp" ≠ PyError.invalidInputError := by
  exact ⟨rfl, by simp⟩

/-- Claim C2, amended: normalization never fails with an
`InvalidInputError` (every failure is a pandas `KeyError` naming a
missing column), and it does fail — with such a `KeyError` — whenever
the batch is empty or some required field is missing from every record;
no result is produced in those cases. -/
theorem c2_missing_column_keyerror (records : List RawRecord) :
    (∀ e, extractColumns records = Except.error e →
      ∃ s, e = PyError.keyError s) ∧
    (records = [] ∨ (∃ f : ColKey, hasColumn records f = false) →
      ∃ s, extractColumns records = Except.error (PyError.keyError s)) := by
  constructor
  · intro e he
    rcases (Bool.eq_false_or_eq_true (hasColumn records ColKey.timestamp)).symm with h1 | h1
    · simp [extractColumns, getColumn, h1] at he
      exact ⟨"timestamp", he.symm⟩
    rcases (Bool.eq_false_or_eq_true (hasColumn records ColKey.close)).symm with h2 | h2
    · simp [extractColumns, getColumn, h1, h2] at he
      exact ⟨"close", he.symm⟩
    rcases (Bool.eq_false_or_eq_true (hasColumn records ColKey.high)).symm with h3 | h3
    · simp [extractColumns, getColumn, h1, h2, h3] at he
      exact ⟨"high", he.symm⟩
    rcases (Bool.eq_false_or_eq_true (hasColumn records ColKey.low)).symm with h4 | h4
    · simp [extractColumns, getColumn, h1, h2, h3, h4] at he
      exact ⟨"low", he.symm⟩
    rcases (Bool.eq_false_or_eq_true (hasColumn records ColKey.openF)).symm with h5 | h5
    · simp [extractColumns, getColumn, h1, h2, h3, h4, h5] at he
      exact ⟨"open", he.symm⟩
    rcases (Bool.eq_false_or_eq_true (hasColumn records ColKey.volume)).symm with h6 | h6
    · simp [extractColumns, getColumn, h1, h2, h3, h4, h5, h6] at he
      exact ⟨"volume", he.symm⟩
    · simp [extractColumns, getColumn, h1, h2, h3, h4, h5, h6] at he
  · intro h
    rcases (Bool.eq_false_or_eq_true (hasColumn records ColKey.timestamp)).symm with h1 | h1
    · exact ⟨"timestamp", by simp [extractColumns, getColumn, ColKey.name, h1]⟩
    rcases (Bool.eq_false_or_eq_true (hasColumn records ColKey.close)).symm with h2 | h2
    · exact ⟨"close", by simp [extractColumns, getColumn, ColKey.name, h1, h2]⟩
    rcases (Bool.eq_false_or_eq_true (hasColumn records ColKey.high)).symm with h3 | h3
    · exact ⟨"high", by simp [extractColumns, getColumn, ColKey.name, h1, h2, h3]⟩
    rcases (Bool.eq_false_or_eq_true (hasColumn records ColKey.low)).symm with h4 | h4
    · exact ⟨"low", by simp [extractColumns, getColumn, ColKey.name, h1, h2, h3, h4]⟩
    rcases (Bool.eq_false_or_eq_true (hasColumn records ColKey.openF)).symm with h5 | h5
    · exact ⟨"open", by simp [extractColumns, getColumn, ColKey.name, h1, h2, h3, h4, h5]⟩
    rcases (Bool.eq_false_or_eq_true (hasColumn records ColKey.volume)).symm with h6 | h6
    · exact ⟨"volume", by simp [extractColumns, getColumn, ColKey.name, h1, h2, h3, h4, h5, h6]⟩
    · exfalso
      rcases h with h | ⟨f, hf⟩
      · subst h
        simp [hasColumn] at h1
      · cases f <;> simp_all

/-- Claim C2 witness: `c2_missing_column_keyerror` applied to a
one-record batch whose `volume` key is absent everywhere: the failure is
`KeyError('volume')`. -/
theorem c2_missing_column_keyerror_witness :
    ∃ s, extractColumns
      [{ timestamp := some 0, «open» := some 10, high := some 12,
         low := some 9, close := some 11 }] =
      Except.error (PyError.keyError s) := by
  apply (c2_missing_column_keyerror _).2
  right
  exact ⟨ColKey.volume, rfl⟩

/-- Claim C5 witness: `c5_overall_majority` applied at an empty snapshot
with no matched patterns and neutral trend — a 0-0 tie among the two
always-present component votes, resolved to `'hold'`. -/
theorem c5_overall_majority_witness :
    List.lookup "overall" (generateSignals {} ⟨[], [], [], Strength.weak⟩
      ⟨TrendDirection.neutral, 50, [], [], none⟩) = some Vote.hold := by
  have h := c5_overall_majority {} ⟨[], [], [], Strength.weak⟩
    ⟨TrendDirection.neutral, 50, [], [], none⟩
  rw [h.1, h.2.2.2 (by decide)]

/-- Claim C10 witness: `c10_engulfing_alias` applied at the constant
detector response 1: `'BULLISH_ENGULFING'` in `patterns_found` forces
`'BEARISH_ENGULFING'` in as well. -/
theorem c10_engulfing_alias_witness :
    "BEARISH_ENGULFING" ∈ (recognizePatterns fun _ => (1 : ℤ)).patterns_found :=
  (c10_engulfing_alias fun _ => (1 : ℤ)).1.mp (by decide)
